import Mathlib

/-!
Verification development for the autograder-sandbox library.

We give a shallow embedding of the command-execution and process-lifecycle
code paths of the repository:

* `src/autograder_sandbox/docker-image-setup/cmd_runner.py` (the in-container
  runner: child outcome bookkeeping, output truncation and the framed result
  emission),
* `src/autograder_sandbox/autograder_sandbox.py` (the controller:
  `run_command`, `_stop`, `_reap`, `_create_and_start`, the
  `environment_variables` property and `_subprocess_helper`),
* `src/autograder_sandbox/reaper/reap.py` (process search and
  descendant-tree reaping).

External effects (the container engine, the OS process table, the wall
clock) are modelled as explicit oracle parameters; each Lean definition is
a direct transcription of the corresponding Python control flow.
-/

/-- Bytes are modelled as natural numbers; only their identity and count
matter to the properties below. -/
abbrev Byte := Nat

/-! ## `_chunked_read` (identical helper in cmd_runner.py and autograder_sandbox.py)

`_chunked_read(file_obj, amount_to_read, chunk_size)` performs
`amount_to_read // chunk_size` reads of `chunk_size` bytes and one final
read of the remainder when it is nonzero.  A Python `file.read(k)` at
position `p` returns the next `k` bytes (fewer at end of file) and
advances the position; we model the file as the list of bytes after the
current position. -/

/-- The `for i in range(num_reads)` loop of `_chunked_read`: each
iteration reads `chunkSize` bytes and advances past them. -/
def chunkedReadLoop (numReads : Nat) (file : List Byte) (chunkSize : Nat) : List Byte :=
  match numReads with
  | 0 => []
  | n + 1 => file.take chunkSize ++ chunkedReadLoop n (file.drop chunkSize) chunkSize

/-- `_chunked_read(file_obj, amount_to_read, chunk_size)`: the loop
followed by the `remainder` read when `amount_to_read % chunk_size` is
nonzero. -/
def chunked_read (file : List Byte) (amountToRead : Nat) (chunkSize : Nat) : List Byte :=
  chunkedReadLoop (amountToRead / chunkSize) file chunkSize ++
    (if amountToRead % chunkSize ≠ 0 then
      (file.drop (amountToRead / chunkSize * chunkSize)).take (amountToRead % chunkSize)
    else [])

/-! ## cmd_runner.py: child process outcome (lines 53-92) -/

/-- Outcome of the target child process launched by `cmd_runner.py`'s
`subprocess.Popen` / `communicate(None, timeout=args.timeout)` call. -/
inductive ChildOutcome where
  /-- `communicate` returned before the timeout; `process.poll()` gave this code. -/
  | exited (code : Int)
  /-- `subprocess.TimeoutExpired`: the process group is SIGKILLed and
  `timed_out` is set. -/
  | timedOut
  /-- `FileNotFoundError` from `Popen`: `return_code` is set to 127. -/
  | execNotFound
deriving DecidableEq

/-- `return_code` as recorded by `cmd_runner.py` `main` (initialised to
`None`, set by `poll()` on normal exit, left `None` on timeout, set to
127 on `FileNotFoundError`). -/
def runner_return_code : ChildOutcome → Option Int
  | .exited code => some code
  | .timedOut => none
  | .execNotFound => some 127

/-- `timed_out` as recorded by `cmd_runner.py` `main`. -/
def runner_timed_out : ChildOutcome → Bool
  | .exited _ => false
  | .timedOut => true
  | .execNotFound => false

/-! ## cmd_runner.py: truncation decision and framed emission (lines 94-124) -/

/-- `stdout_truncated = (args.truncate_stdout is not None and stdout_len > args.truncate_stdout)`
(and likewise for stderr). -/
def stream_truncated (cap : Option Nat) (len : Nat) : Bool :=
  match cap with
  | none => false
  | some c => decide (len > c)

/-- `truncated_stdout_len = args.truncate_stdout if stdout_truncated else stdout_len`
(the `getD` default is irrelevant: the flag is true only when the cap is present). -/
def truncated_stream_len (cap : Option Nat) (len : Nat) : Nat :=
  if stream_truncated cap len then cap.getD len else len

/-- The `results` dict serialised as the metadata JSON by `cmd_runner.py`. -/
structure RunnerResults where
  cmd_args : List String
  return_code : Option Int
  timed_out : Bool
  stdout_truncated : Bool
  stderr_truncated : Bool
deriving DecidableEq

/-- One framed result on the runner's stdout, in emission order:
`print(len(json_data))`, `print(json_data, end='')`,
`print(truncated_stdout_len)`, the stdout bytes,
`print(stderr_len)`, the stderr bytes. -/
structure RunnerEmission where
  results : RunnerResults
  metadata_len : Nat
  metadata_bytes : List Byte
  stdout_len_field : Nat
  stdout_bytes : List Byte
  stderr_len_field : Nat
  stderr_bytes : List Byte
deriving DecidableEq

/-- Lines 94-124 of `cmd_runner.py`.  `stdout`/`stderr` are the bytes the
child wrote to the two temporary files, so `os.path.getsize` is their
length.  `dumps` abstracts `json.dumps` (with the default `ensure_ascii`
its output is ASCII, so `len(json_data)` equals its byte count; we pass
the serialised bytes around directly).

Note line 120 of the source prints `stderr_len` (the untruncated size)
before writing `truncated_stderr_len` bytes, while line 113 prints
`truncated_stdout_len` for the stdout record. -/
def runner_emit (truncStdout truncStderr : Option Nat) (cmdArgs : List String)
    (child : ChildOutcome) (stdout stderr : List Byte)
    (dumps : RunnerResults → List Byte) : RunnerEmission :=
  let stdout_len := stdout.length
  let stderr_len := stderr.length
  let results : RunnerResults :=
    { cmd_args := cmdArgs
      return_code := runner_return_code child
      timed_out := runner_timed_out child
      stdout_truncated := stream_truncated truncStdout stdout_len
      stderr_truncated := stream_truncated truncStderr stderr_len }
  let json_data := dumps results
  let truncated_stdout_len := truncated_stream_len truncStdout stdout_len
  let truncated_stderr_len := truncated_stream_len truncStderr stderr_len
  { results := results
    metadata_len := json_data.length
    metadata_bytes := json_data
    stdout_len_field := truncated_stdout_len
    stdout_bytes := chunked_read stdout truncated_stdout_len 16384
    stderr_len_field := stderr_len
    stderr_bytes := chunked_read stderr truncated_stderr_len 16384 }

/-- The whole of `cmd_runner.py` `main` on its non-crashing paths: the
framed emission plus the script's own exit status.  `main()` falls off
the end without calling `sys.exit`, so the interpreter exits with
status 0 regardless of the child's outcome. -/
def cmd_runner_main (truncStdout truncStderr : Option Nat) (cmdArgs : List String)
    (child : ChildOutcome) (stdout stderr : List Byte)
    (dumps : RunnerResults → List Byte) : RunnerEmission × Int :=
  (runner_emit truncStdout truncStderr cmdArgs child stdout stderr dumps, 0)

/-! ## autograder_sandbox.py: `run_command` (lines 488-618) -/

/-- `CMD_RUNNER_PATH` constant of autograder_sandbox.py. -/
def CMD_RUNNER_PATH : String := "/usr/local/bin/cmd_runner.py"

/-- The keyword arguments of `AutograderSandbox.run_command`. -/
structure RunCommandArgs where
  args : List String
  block_process_spawn : Bool
  max_stack_size : Option Nat
  max_virtual_memory : Option Nat
  as_root : Bool
  timeout : Option Nat
  check : Bool
  truncate_stdout : Option Nat
  truncate_stderr : Option Nat
deriving DecidableEq

/-- Lines 531-549: the `docker exec` invocation built by `run_command`.
Note that the truncation caps are *not* forwarded to the runner. -/
def build_docker_exec_cmd (name cmdId : String) (a : RunCommandArgs) : List String :=
  ["docker", "exec", "-i", name, CMD_RUNNER_PATH, "--cmd_id", cmdId] ++
    (if a.block_process_spawn then ["--block_process_spawn"] else []) ++
    (match a.max_stack_size with
      | some n => ["--max_stack_size", toString n]
      | none => []) ++
    (match a.max_virtual_memory with
      | some n => ["--max_virtual_memory", toString n]
      | none => []) ++
    (match a.timeout with
      | some t => ["--timeout", toString t]
      | none => []) ++
    (if a.as_root then ["--as_root"] else []) ++
    a.args

/-- Line 562: the bound passed to `docker_exec.wait(timeout=timeout)` —
the caller-supplied timeout itself, or unbounded when it is `None`. -/
def run_command_wait_timeout (a : RunCommandArgs) : Option Nat :=
  a.timeout

/-- Outcome of the controller's `docker_exec.wait(timeout=timeout)` call. -/
inductive DockerExecOutcome where
  /-- `wait` returned this exit status within the bound. -/
  | completed (exitCode : Int)
  /-- `subprocess.TimeoutExpired`: the controller reaps by `cmd_id`,
  SIGTERMs/SIGKILLs the exec call's process group and proceeds with
  `return_code = None`, `timed_out = True`. -/
  | waitTimedOut
deriving DecidableEq

/-- The `CompletedCommand` record returned by `run_command`. -/
structure CompletedCommand where
  return_code : Option Int
  timed_out : Bool
  stdout : List Byte
  stderr : List Byte
  stdout_truncated : Bool
  stderr_truncated : Bool
deriving DecidableEq

/-- The payload of `SandboxCommandError` (the command and the full result). -/
structure SandboxCommandErrorData where
  cmd : List String
  result : CompletedCommand
deriving DecidableEq

/-- Lines 553-613 of `run_command`: collect `return_code`/`timed_out`
from the wait outcome, measure the raw runner streams with `tell()`,
apply the controller-side truncation decision (lines 578-590) and copy
`stdout_len`/`stderr_len` bytes out with `_chunked_read`
(lines 594-605).  `runnerStdout`/`runnerStderr` are the bytes the
`docker exec` process wrote to the two temporary files. -/
def run_command_collect (a : RunCommandArgs) (outcome : DockerExecOutcome)
    (runnerStdout runnerStderr : List Byte) : CompletedCommand :=
  let return_code : Option Int :=
    match outcome with
    | .completed code => some code
    | .waitTimedOut => none
  let timed_out : Bool :=
    match outcome with
    | .completed _ => false
    | .waitTimedOut => true
  let stdoutTell := runnerStdout.length
  let stderrTell := runnerStderr.length
  let stdoutPair : Nat × Bool :=
    match a.truncate_stdout with
    | some cap => if stdoutTell > cap then (cap, true) else (stdoutTell, false)
    | none => (stdoutTell, false)
  let stderrPair : Nat × Bool :=
    match a.truncate_stderr with
    | some cap => if stderrTell > cap then (cap, true) else (stderrTell, false)
    | none => (stderrTell, false)
  { return_code := return_code
    timed_out := timed_out
    stdout := chunked_read runnerStdout stdoutPair.1 16384
    stderr := chunked_read runnerStderr stderrPair.1 16384
    stdout_truncated := stdoutPair.2
    stderr_truncated := stderrPair.2 }

/-- Lines 607-618: build the result and, when `check` is set and
`result.return_code != 0` (Python: `None != 0` is true), raise
`SandboxCommandError(cmd=args, result=result)`; otherwise return the
result. -/
def run_command (a : RunCommandArgs) (outcome : DockerExecOutcome)
    (runnerStdout runnerStderr : List Byte) :
    Except SandboxCommandErrorData CompletedCommand :=
  let result := run_command_collect a outcome runnerStdout runnerStderr
  if a.check = true ∧ result.return_code ≠ some 0 then
    .error { cmd := a.args, result := result }
  else
    .ok result

/-- The in-repo composition of `run_command` with the runner that
`_create_and_start` installs at `CMD_RUNNER_PATH`
(docker-image-setup/cmd_runner.py): when the runner finishes before the
controller's wait bound, `docker exec` exits with the runner script's
own exit status and its stdout is the framed emission.  The controller
never passes `--truncate_stdout`/`--truncate_stderr`, so the runner's
caps are `None`.  `frame` abstracts the byte encoding of the emission on
the exec channel. -/
def composed_run_command (a : RunCommandArgs) (child : ChildOutcome)
    (childStdout childStderr : List Byte) (dumps : RunnerResults → List Byte)
    (frame : RunnerEmission → List Byte) :
    Except SandboxCommandErrorData CompletedCommand :=
  let run := cmd_runner_main none none a.args child childStdout childStderr dumps
  run_command a (.completed run.2) (frame run.1) []

/-! ## autograder_sandbox.py: exception taxonomy (lines 58-95) -/

/-- The library's exception classes.  `SandboxNotStopped` subclasses
`CriticalSandboxError` which subclasses `SandboxError`;
`SandboxNotDestroyed` subclasses `SandboxError` directly. -/
inductive SandboxExc where
  | sandboxError (msg : String)
  | criticalSandboxError (msg : String)
  | sandboxNotStopped
  | sandboxNotDestroyed (msg : String)
deriving DecidableEq

/-- Whether the exception is an instance of `CriticalSandboxError`
(the class "distinct from ordinary errors" requiring operator
intervention). -/
def SandboxExc.isCritical : SandboxExc → Bool
  | .criticalSandboxError _ => true
  | .sandboxNotStopped => true
  | _ => false

/-! ## autograder_sandbox.py: `_subprocess_helper` and `_reap` (lines 416-441, 682-721) -/

/-- Outcome of one `subprocess.run(cmd, timeout=..., check=True, ...)`
call made by `_subprocess_helper`. -/
inductive SubprocOutcome where
  /-- The subprocess finished within the timeout with this exit code. -/
  | completed (exitCode : Int)
  /-- `subprocess.TimeoutExpired`. -/
  | timedOut
deriving DecidableEq

/-- The exceptions `subprocess.run(check=True)` raises on failure. -/
inductive SubprocError where
  | calledProcessError (exitCode : Int)
  | timeoutExpired
deriving DecidableEq

/-- `_subprocess_helper` with `reraise_as=None`: `subprocess.run` with
`check=True` raises `CalledProcessError` exactly on a nonzero exit code
and `TimeoutExpired` on timeout; the helper logs and re-raises the
original exception. -/
def subprocess_helper (o : SubprocOutcome) : Except SubprocError Int :=
  match o with
  | .completed code => if code = 0 then .ok code else .error (.calledProcessError code)
  | .timedOut => .error .timeoutExpired

/-- What `AutograderSandbox._reap` did: which mocking-hook contexts were
invoked and the outcome of the reaper subprocess it observed. -/
structure ReapInfo where
  hookCalls : List String
  subprocResult : Except SubprocError Int

/-- Lines 416-441 of autograder_sandbox.py: run the reaper image via
`_subprocess_helper`; on `CalledProcessError` or `TimeoutExpired` call
`_mocking_hook('reaping_failed')`, log, and deliberately do **not**
re-raise.  The `Except SandboxExc` result type is shared with the other
lifecycle operations; `_reap` never produces the `error` case. -/
def sandbox_reap (searchFor : String) (o : SubprocOutcome) :
    Except SandboxExc ReapInfo :=
  match subprocess_helper o with
  | .ok code => .ok { hookCalls := [], subprocResult := .ok code }
  | .error e => .ok { hookCalls := ["reaping_failed"], subprocResult := .error e }

/-! ## autograder_sandbox.py: `_stop` (lines 389-414) -/

/-- Observable trace of one `AutograderSandbox._stop` call. -/
structure StopTrace where
  /-- Grace periods (`docker stop --time <n>`) of the stop commands
  issued, in order. -/
  stopGraces : List Nat
  /-- Search tokens passed to `_reap`, in order. -/
  reapTokens : List String
  /-- The exception propagated to the caller, if any. -/
  raised : Option SandboxExc
  /-- `self._is_running` after the call, assuming it was `true` before. -/
  isRunningAfter : Bool
deriving DecidableEq

/-- Lines 389-414: try `docker stop --time 10`; on
`TimeoutExpired`/`CalledProcessError`, `_reap(self._main_process_script)`
(which never raises) then `docker stop --time 5`; if anything in that
recovery block raises, log critical and raise `SandboxNotStopped`.
`firstStop`/`secondStop` are the outcomes of the two `docker stop`
subprocesses; `reapOutcome` is the reaper subprocess outcome. -/
def sandbox_stop (mainProcessScript : String)
    (firstStop : SubprocOutcome) (secondStop : SubprocOutcome)
    (reapOutcome : SubprocOutcome) : StopTrace :=
  match subprocess_helper firstStop with
  | .ok _ => { stopGraces := [10], reapTokens := [], raised := none, isRunningAfter := false }
  | .error _ =>
    match sandbox_reap mainProcessScript reapOutcome with
    | .error e =>
      -- unreachable: `_reap` swallows its subprocess failures
      { stopGraces := [10], reapTokens := [mainProcessScript]
        raised := some e, isRunningAfter := true }
    | .ok _ =>
      match subprocess_helper secondStop with
      | .ok _ =>
        { stopGraces := [10, 5], reapTokens := [mainProcessScript]
          raised := none, isRunningAfter := false }
      | .error _ =>
        { stopGraces := [10, 5], reapTokens := [mainProcessScript]
          raised := some .sandboxNotStopped, isRunningAfter := true }

/-! ## autograder_sandbox.py: `_create_and_start` (lines 281-373) -/

/-- Success/failure of each external step of `_create_and_start`, in
program order: `docker create`, `docker cp` of the placeholder main
process script, `docker start`, `docker cp` of cmd_runner.py, and
`docker exec ... chmod 555` on it. -/
structure SetupOutcome where
  createOk : Bool
  copyMainScriptOk : Bool
  startOk : Bool
  copyRunnerOk : Bool
  chmodOk : Bool
deriving DecidableEq

/-- Observable trace of one `_create_and_start` call. -/
structure SetupTrace where
  /-- Whether `self._destroy()` was invoked on the failure path. -/
  destroyCalled : Bool
  /-- The exception propagated to the caller, if any. -/
  raised : Option SandboxExc
  /-- `self._is_running` after the call (initially `false`). -/
  isRunning : Bool
deriving DecidableEq

/-- Lines 281-373: the first three steps re-raise as `SandboxError`
without any teardown; only the `try` block around the cmd_runner copy
and the chmod calls `self._destroy()` before re-raising.
`self._is_running = True` is reached only when every step succeeded. -/
def create_and_start (o : SetupOutcome) : SetupTrace :=
  if o.createOk = false then
    { destroyCalled := false, raised := some (.sandboxError "create"), isRunning := false }
  else if o.copyMainScriptOk = false then
    { destroyCalled := false, raised := some (.sandboxError "copy main script"), isRunning := false }
  else if o.startOk = false then
    { destroyCalled := false, raised := some (.sandboxError "start"), isRunning := false }
  else if o.copyRunnerOk = false then
    { destroyCalled := true, raised := some (.sandboxError "copy cmd_runner"), isRunning := false }
  else if o.chmodOk = false then
    { destroyCalled := true, raised := some (.sandboxError "chmod cmd_runner"), isRunning := false }
  else
    { destroyCalled := false, raised := none, isRunning := true }

/-! ## reaper/reap.py: process search and descendant reaping -/

/-- One entry of the process table visible to the reaper. -/
structure Proc where
  pid : Nat
  ppid : Nat
  cmdline : List String
deriving DecidableEq

/-- Python's substring test `needle in hay` on the character lists of the
two strings. -/
def containsSub (needle : List Char) : List Char → Bool
  | [] => needle.isEmpty
  | c :: rest => needle.isPrefixOf (c :: rest) || containsSub needle rest

/-- `_find_process` (reap.py lines 44-58): walk the table in order, skip
any process whose first two command-line words are `docker exec`, and
return the first remaining process with `search_for` as a substring of
one of its arguments. -/
def find_process (searchFor : String) : List Proc → Option Proc
  | [] => none
  | p :: rest =>
    if p.cmdline.take 2 = ["docker", "exec"] then
      find_process searchFor rest
    else if p.cmdline.any (fun arg => containsSub searchFor.toList arg.toList) then
      some p
    else
      find_process searchFor rest

/-- Direct children of `pid` in the table. -/
def childrenOf (table : List Proc) (pid : Nat) : List Proc :=
  table.filter (fun p => p.ppid == pid)

/-- `parent.children(recursive=True)`: every child together with its own
descendants.  The fuel bounds the recursion depth; `table.length` steps
suffice for any snapshot of a real (acyclic) process tree. -/
def descendantsAux (table : List Proc) : Nat → Nat → List Proc
  | 0, _ => []
  | fuel + 1, pid =>
    (childrenOf table pid).flatMap (fun c => c :: descendantsAux table fuel c.pid)

/-- All descendants (children, grandchildren, ...) of `pid`. -/
def descendants (table : List Proc) (pid : Nat) : List Proc :=
  descendantsAux table table.length pid

/-- A snapshot of a real process tree: every process was forked by an
earlier process, so parent pids are strictly smaller.  This rules out
cycles (a process being its own descendant). -/
def WFTable (table : List Proc) : Prop :=
  ∀ p ∈ table, p.ppid < p.pid

/-- Observable trace of `_kill_proc_descendents`: which pids were sent
SIGTERM, which were sent SIGKILL, and whether the safety assertion
fired. -/
structure KillTrace where
  termSignaled : List Nat
  killSignaled : List Nat
  assertFailed : Bool
deriving DecidableEq

/-- `_kill_proc_descendents` (reap.py lines 63-96): assert the found
process is not the reaper itself (an `AssertionError` aborts before any
signal is sent), collect `parent.children(recursive=True)`, SIGTERM each
of them, `wait_procs(children, timeout=3)`, then SIGKILL the survivors.
`diesOnTerm pid` is the oracle for whether the process exits within the
3-second grace period after SIGTERM. -/
def kill_proc_descendents (table : List Proc) (selfPid : Nat) (parent : Proc)
    (diesOnTerm : Nat → Bool) : KillTrace :=
  if parent.pid = selfPid then
    { termSignaled := [], killSignaled := [], assertFailed := true }
  else
    let children := descendants table parent.pid
    let alive := children.filter (fun p => !(diesOnTerm p.pid))
    { termSignaled := children.map (fun p => p.pid)
      killSignaled := alive.map (fun p => p.pid)
      assertFailed := false }

/-- `_reap` in reap.py (lines 27-41): find the process by token and kill
its descendant tree; when no process matches, do nothing. -/
def reaper_run (table : List Proc) (selfPid : Nat) (searchFor : String)
    (diesOnTerm : Nat → Bool) : KillTrace :=
  match find_process searchFor table with
  | none => { termSignaled := [], killSignaled := [], assertFailed := false }
  | some parent => kill_proc_descendents table selfPid parent diesOnTerm

/-! ## autograder_sandbox.py: `environment_variables` property (lines 477-486)
and the `-e` arguments of `_create_and_start` (lines 300-304)

Python dictionaries are mutable heap objects, so we model a store of
dictionaries addressed by references: `environment_variables` returns a
*fresh* dictionary (`dict(self._environment_variables)`, or a literal
`{}` when the configured value is `None` or empty), and mutating the
returned object is a store write at its reference. -/

/-- A heap of Python dicts: contents by reference, plus the next fresh
reference. -/
structure DictStore where
  mem : Nat → Option (List (String × String))
  next : Nat

/-- Allocate a fresh dict with the given entries; returns the new store
and the new object's reference. -/
def DictStore.alloc (σ : DictStore) (entries : List (String × String)) :
    DictStore × Nat :=
  (⟨fun r => if r = σ.next then some entries else σ.mem r, σ.next + 1⟩, σ.next)

/-- Mutate the dict at reference `r` (e.g. `d['key'] = 'value'` or
`d.clear()` on the object returned by the property). -/
def DictStore.write (σ : DictStore) (r : Nat) (entries : List (String × String)) :
    DictStore :=
  ⟨fun r' => if r' = r then some entries else σ.mem r', σ.next⟩

/-- The `environment_variables` property: `if not
self._environment_variables: return {}` (falsy: `None` or empty dict),
else `return dict(self._environment_variables)`.  `envRef` is
`self._environment_variables` (`none` models Python `None`).  Both
branches hand the caller a freshly allocated object. -/
def environment_variables_prop (σ : DictStore) (envRef : Option Nat) :
    DictStore × Nat :=
  match envRef with
  | none => σ.alloc []
  | some r =>
    match σ.mem r with
    | none => σ.alloc []
    | some entries => if entries = [] then σ.alloc [] else σ.alloc entries

/-- The entries the configured mapping holds (empty when none was
configured). -/
def environment_variables_content (σ : DictStore) (envRef : Option Nat) :
    List (String × String) :=
  match envRef with
  | none => []
  | some r => (σ.mem r).getD []

/-- Lines 300-304 of `_create_and_start`: read `self.environment_variables`
(the property — a fresh copy) and emit `['-e', '{key}={value}']` for each
item; an empty/absent mapping contributes no arguments. -/
def env_create_args (σ : DictStore) (envRef : Option Nat) : List String :=
  (((environment_variables_prop σ envRef).1.mem
      (environment_variables_prop σ envRef).2).getD []).flatMap
    (fun kv => ["-e", kv.1 ++ "=" ++ kv.2])

/-! ## Concrete instances used by the witnesses -/

/-- A store with one configured environment mapping at reference 0. -/
def envStoreExample : DictStore :=
  ⟨fun r => if r = 0 then some [("SPAM", "egg")] else none, 1⟩

/-- A host process-table snapshot: the `docker exec` wrapper whose
command line reflects the search token, the container's placeholder main
process (the real match), and two nested descendants. -/
def procTableExample : List Proc :=
  [⟨4, 2, ["docker", "exec", "-i", "box", "/usr/local/bin/cmd_runner.py",
      "--cmd_id", "sandbox-abc"]⟩,
   ⟨5, 1, ["/bin/bash", "/sandbox-abc-main.sh"]⟩,
   ⟨6, 5, ["sleep", "100"]⟩,
   ⟨7, 6, ["sleep", "50"]⟩]

/-! # Lemmas about the embedded code -/

/-- The chunk loop of `_chunked_read` returns exactly the first
`numReads * chunkSize` bytes of the file. -/
theorem chunkedReadLoop_eq_take (n : Nat) :
    ∀ (file : List Byte) (cs : Nat), chunkedReadLoop n file cs = file.take (n * cs) := by
  induction n with
  | zero => intro file cs; simp [chunkedReadLoop]
  | succ k ih =>
    intro file cs
    simp only [chunkedReadLoop, ih]
    rw [Nat.succ_mul, Nat.add_comm, List.take_add]

/-- `_chunked_read(file, amount, chunk_size)` returns exactly the first
`amount` bytes of the file (all of it when the file is shorter). -/
theorem chunked_read_eq_take (file : List Byte) (amount cs : Nat) :
    chunked_read file amount cs = file.take amount := by
  unfold chunked_read
  rw [chunkedReadLoop_eq_take]
  by_cases h : amount % cs = 0
  · simp only [h, ne_eq, not_true_eq_false, if_false, List.append_nil]
    have : amount / cs * cs = amount := Nat.div_mul_cancel (Nat.dvd_of_mod_eq_zero h)
    rw [this]
  · simp only [h, ne_eq, not_false_eq_true, if_true]
    rw [← List.take_add]
    have : amount / cs * cs + amount % cs = amount := by
      rw [Nat.mul_comm]; exact Nat.div_add_mod amount cs
    rw [this]

/-- Byte count delivered by `_chunked_read`. -/
theorem chunked_read_length (file : List Byte) (amount cs : Nat) :
    (chunked_read file amount cs).length = min amount file.length := by
  rw [chunked_read_eq_take, List.length_take]

/-- The runner's per-stream length bookkeeping is `min` of true length
and cap when a cap is present. -/
theorem truncated_stream_len_min (C L : Nat) :
    truncated_stream_len (some C) L = min L C := by
  simp only [truncated_stream_len, stream_truncated, Option.getD_some, decide_eq_true_eq]
  split <;> omega

/-- Without a cap the runner's length bookkeeping is the true length. -/
theorem truncated_stream_len_none (L : Nat) : truncated_stream_len none L = L := rfl

/-- `run_command_collect` field computations, by wait outcome. -/
theorem collect_return_code_completed (a : RunCommandArgs) (c : Int) (o e : List Byte) :
    (run_command_collect a (.completed c) o e).return_code = some c := rfl

theorem collect_return_code_timeout (a : RunCommandArgs) (o e : List Byte) :
    (run_command_collect a .waitTimedOut o e).return_code = none := rfl

theorem collect_timed_out_completed (a : RunCommandArgs) (c : Int) (o e : List Byte) :
    (run_command_collect a (.completed c) o e).timed_out = false := rfl

theorem collect_timed_out_timeout (a : RunCommandArgs) (o e : List Byte) :
    (run_command_collect a .waitTimedOut o e).timed_out = true := rfl

/-! # Claims -/

/-- Claim C1, counterexample.  The claim asserts the outer
`docker exec` wait is bounded by `max(2 × timeoutSeconds,
minFallbackTimeout)`.  The code (autograder_sandbox.py line 562) passes
the caller's timeout itself to `docker_exec.wait`: with
`timeout = 1` the outer bound is `1`, which is strictly below
`2 × 1` and hence below `max(2 × 1, m)` for every `m`. -/
theorem C1_fallback_counterexample :
    run_command_wait_timeout
        ⟨["sleep", "10"], false, none, none, false, some 1, false, none, none⟩ = some 1
    ∧ ¬ ∃ m : Nat, (1 : Nat) = max (2 * 1) m := by
  refine ⟨rfl, ?_⟩
  rintro ⟨m, hm⟩
  omega

/-- Claim C1, amended: when `timeoutSeconds` is set to `t`, the
controller bounds the outer `docker exec` wait by exactly `t` — the same
value it passes to the in-container runner as `--timeout`, so the outer
bound equals (hence is at least) the inner command timeout; when
`timeoutSeconds` is not set, the outer wait is unbounded. -/
theorem C1_wait_bound (name cmdId : String) (a : RunCommandArgs) :
    (∀ t, a.timeout = some t →
      run_command_wait_timeout a = some t ∧
      ∃ pre post, build_docker_exec_cmd name cmdId a
        = pre ++ ["--timeout", toString t] ++ post)
    ∧ (a.timeout = none → run_command_wait_timeout a = none) := by
  constructor
  · intro t ht
    refine ⟨by simp [run_command_wait_timeout, ht], ?_⟩
    refine ⟨["docker", "exec", "-i", name, CMD_RUNNER_PATH, "--cmd_id", cmdId] ++
      (if a.block_process_spawn then ["--block_process_spawn"] else []) ++
      (match a.max_stack_size with
        | some n => ["--max_stack_size", toString n]
        | none => []) ++
      (match a.max_virtual_memory with
        | some n => ["--max_virtual_memory", toString n]
        | none => []),
      (if a.as_root then ["--as_root"] else []) ++ a.args, ?_⟩
    simp [build_docker_exec_cmd, ht, List.append_assoc]
  · intro h
    simp [run_command_wait_timeout, h]

/-- Witness for `C1_wait_bound` at a concrete invocation. -/
theorem C1_wait_bound_witness :
    run_command_wait_timeout
        ⟨["echo", "hi"], false, none, none, false, some 3, false, none, none⟩ = some 3 :=
  ((C1_wait_bound "box" "cmd1" _).1 3 rfl).1

/-- Claim C2, code bug evaluated at a failing input.  With a 5-byte
stderr stream and `truncate_stderr = 3`, the runner's framed emission
advertises a stderr length of `5` (line 120 of cmd_runner.py prints
`stderr_len`, the untruncated size) but then writes only the 3 truncated
bytes, so the emitted length does not equal the byte count that follows;
the stdout record of the same emission is consistent (line 113 prints
`truncated_stdout_len`). -/
theorem C2_framing_code_bug :
    (runner_emit (some 10) (some 3) ["cat"] (.exited 0) [65, 66] [1, 2, 3, 4, 5]
        (fun _ => [])).stderr_len_field = 5
    ∧ (runner_emit (some 10) (some 3) ["cat"] (.exited 0) [65, 66] [1, 2, 3, 4, 5]
        (fun _ => [])).stderr_bytes = [1, 2, 3]
    ∧ (runner_emit (some 10) (some 3) ["cat"] (.exited 0) [65, 66] [1, 2, 3, 4, 5]
        (fun _ => [])).stderr_len_field ≠
      (runner_emit (some 10) (some 3) ["cat"] (.exited 0) [65, 66] [1, 2, 3, 4, 5]
        (fun _ => [])).stderr_bytes.length
    ∧ (runner_emit (some 10) (some 3) ["cat"] (.exited 0) [65, 66] [1, 2, 3, 4, 5]
        (fun _ => [])).results.stderr_truncated = true
    ∧ (runner_emit (some 10) (some 3) ["cat"] (.exited 0) [65, 66] [1, 2, 3, 4, 5]
        (fun _ => [])).stdout_len_field = 2
    ∧ (runner_emit (some 10) (some 3) ["cat"] (.exited 0) [65, 66] [1, 2, 3, 4, 5]
        (fun _ => [])).stdout_bytes = [65, 66] := by
  refine ⟨rfl, rfl, ?_, rfl, rfl, rfl⟩
  decide

/-- Claim C4, code bug evaluated at a failing input.  For a command that
exits with status 2 before its timeout: the in-container runner records
the true exit code (2) only inside its framed metadata and the runner
script itself exits 0; the controller never parses the framing and takes
`docker_exec.wait`'s status, so the `CompletedCommand` it returns reports
`return_code = 0`, not the process's true exit code. -/
theorem C4_return_code_code_bug :
    (cmd_runner_main none none ["sh", "-c", "exit 2"] (.exited 2) [] []
        (fun _ => [])).1.results.return_code = some 2
    ∧ (cmd_runner_main none none ["sh", "-c", "exit 2"] (.exited 2) [] []
        (fun _ => [])).2 = 0
    ∧ composed_run_command
        ⟨["sh", "-c", "exit 2"], false, none, none, false, none, false, none, none⟩
        (.exited 2) [] [] (fun _ => []) (fun _ => [])
      = .ok ⟨some 0, false, [], [], false, false⟩ :=
  ⟨rfl, rfl, rfl⟩

/-- Claim C3: at both truncation layers — the in-container runner
(`runner_emit`) and the controller (`run_command_collect`) — a stream of
true length `L` with a configured cap `C` is flagged truncated exactly
when `L > C` and `min L C` of its bytes are passed on, and a stream
without a cap is never flagged and is passed on whole. -/
theorem C3_truncation (outS errS : List Byte) (C D : Nat) (cmdArgs : List String)
    (child : ChildOutcome) (dumps : RunnerResults → List Byte)
    (args : List String) (bps root chk : Bool) (mss mvm tmo : Option Nat)
    (oc : DockerExecOutcome) :
    -- in-container runner, caps configured
    ((runner_emit (some C) (some D) cmdArgs child outS errS dumps).results.stdout_truncated
        = decide (outS.length > C)
    ∧ (runner_emit (some C) (some D) cmdArgs child outS errS dumps).stdout_bytes.length
        = min outS.length C
    ∧ (runner_emit (some C) (some D) cmdArgs child outS errS dumps).results.stderr_truncated
        = decide (errS.length > D)
    ∧ (runner_emit (some C) (some D) cmdArgs child outS errS dumps).stderr_bytes.length
        = min errS.length D)
    -- in-container runner, no caps
    ∧ ((runner_emit none none cmdArgs child outS errS dumps).results.stdout_truncated = false
    ∧ (runner_emit none none cmdArgs child outS errS dumps).stdout_bytes = outS
    ∧ (runner_emit none none cmdArgs child outS errS dumps).results.stderr_truncated = false
    ∧ (runner_emit none none cmdArgs child outS errS dumps).stderr_bytes = errS)
    -- controller, caps configured
    ∧ ((run_command_collect ⟨args, bps, mss, mvm, root, tmo, chk, some C, some D⟩
          oc outS errS).stdout_truncated = decide (outS.length > C)
    ∧ (run_command_collect ⟨args, bps, mss, mvm, root, tmo, chk, some C, some D⟩
          oc outS errS).stdout.length = min outS.length C
    ∧ (run_command_collect ⟨args, bps, mss, mvm, root, tmo, chk, some C, some D⟩
          oc outS errS).stderr_truncated = decide (errS.length > D)
    ∧ (run_command_collect ⟨args, bps, mss, mvm, root, tmo, chk, some C, some D⟩
          oc outS errS).stderr.length = min errS.length D)
    -- controller, no caps
    ∧ ((run_command_collect ⟨args, bps, mss, mvm, root, tmo, chk, none, none⟩
          oc outS errS).stdout_truncated = false
    ∧ (run_command_collect ⟨args, bps, mss, mvm, root, tmo, chk, none, none⟩
          oc outS errS).stdout = outS
    ∧ (run_command_collect ⟨args, bps, mss, mvm, root, tmo, chk, none, none⟩
          oc outS errS).stderr_truncated = false
    ∧ (run_command_collect ⟨args, bps, mss, mvm, root, tmo, chk, none, none⟩
          oc outS errS).stderr = errS) := by
  refine ⟨⟨rfl, ?_, rfl, ?_⟩, ⟨rfl, ?_, rfl, ?_⟩, ⟨?_, ?_, ?_, ?_⟩, ⟨rfl, ?_, rfl, ?_⟩⟩
  · show (chunked_read outS (truncated_stream_len (some C) outS.length) 16384).length = _
    rw [chunked_read_length, truncated_stream_len_min]
    omega
  · show (chunked_read errS (truncated_stream_len (some D) errS.length) 16384).length = _
    rw [chunked_read_length, truncated_stream_len_min]
    omega
  · show chunked_read outS outS.length 16384 = outS
    rw [chunked_read_eq_take, List.take_length]
  · show chunked_read errS errS.length 16384 = errS
    rw [chunked_read_eq_take, List.take_length]
  · show (if outS.length > C then (C, true) else (outS.length, false)).2 = _
    split <;> simp_all
  · show (chunked_read outS (if outS.length > C then (C, true)
      else (outS.length, false)).1 16384).length = _
    rw [chunked_read_length]
    split <;> (simp only []; omega)
  · show (if errS.length > D then (D, true) else (errS.length, false)).2 = _
    split <;> simp_all
  · show (chunked_read errS (if errS.length > D then (D, true)
      else (errS.length, false)).1 16384).length = _
    rw [chunked_read_length]
    split <;> (simp only []; omega)
  · show chunked_read outS outS.length 16384 = outS
    rw [chunked_read_eq_take, List.take_length]
  · show chunked_read errS errS.length 16384 = errS
    rw [chunked_read_eq_take, List.take_length]

/-- Claim C5: `run_command` returns normally for every wait outcome when
`check` is false, and when `check` is true it raises
`SandboxCommandError` — carrying the command and the full collected
result — exactly when the observed exit status is nonzero or the wait
timed out (Python `None != 0` makes the timeout case raise). -/
theorem C5_check_raise_semantics (a : RunCommandArgs) (oc : DockerExecOutcome)
    (o e : List Byte) :
    (a.check = false →
      run_command a oc o e = .ok (run_command_collect a oc o e))
    ∧ (a.check = true →
      (run_command a oc o e = .error ⟨a.args, run_command_collect a oc o e⟩
        ↔ ((∃ c, c ≠ 0 ∧ (run_command_collect a oc o e).return_code = some c)
            ∨ (run_command_collect a oc o e).timed_out = true))) := by
  constructor
  · intro h
    simp [run_command, h]
  · intro h
    cases oc with
    | completed c =>
      simp only [run_command, h, collect_return_code_completed,
        collect_timed_out_completed, true_and]
      by_cases hc : c = 0
      · subst hc
        simp
      · simp only [ne_eq, Option.some.injEq, hc, not_false_eq_true, if_true]
        constructor
        · intro _
          exact Or.inl ⟨c, hc, rfl⟩
        · intro _
          trivial
    | waitTimedOut =>
      simp [run_command, h, collect_return_code_timeout, collect_timed_out_timeout]

/-- Witness for `C5_check_raise_semantics`: with `check = true` a
command observed to exit 1 raises the error carrying command and
result. -/
theorem C5_check_raise_witness :
    run_command ⟨["false"], false, none, none, false, none, true, none, none⟩
        (.completed 1) [] []
      = .error ⟨["false"],
          run_command_collect ⟨["false"], false, none, none, false, none, true, none, none⟩
            (.completed 1) [] []⟩ :=
  ((C5_check_raise_semantics _ _ _ _).2 rfl).mpr (Or.inl ⟨1, by decide, rfl⟩)

/-- Claim C6: `_stop` first issues a graceful `docker stop` with grace
period 10; when that attempt fails or times out it invokes `_reap` with
the container's root-process marker and retries `docker stop` with the
strictly shorter grace period 5; if the retry also fails it raises
`SandboxNotStopped`, which is a `CriticalSandboxError`, and no failure
of the retry is ever swallowed: the call returns without an exception
only when one of the two stop attempts succeeded. -/
theorem C6_stop_escalation (script : String)
    (firstStop secondStop reapOutcome : SubprocOutcome) :
    (sandbox_stop script firstStop secondStop reapOutcome).stopGraces.head? = some 10
    ∧ (∀ err, subprocess_helper firstStop = .error err →
        (sandbox_stop script firstStop secondStop reapOutcome).reapTokens = [script]
        ∧ (sandbox_stop script firstStop secondStop reapOutcome).stopGraces = [10, 5]
        ∧ 5 < 10
        ∧ (∀ err2, subprocess_helper secondStop = .error err2 →
            (sandbox_stop script firstStop secondStop reapOutcome).raised
              = some .sandboxNotStopped
            ∧ SandboxExc.isCritical .sandboxNotStopped = true))
    ∧ ((sandbox_stop script firstStop secondStop reapOutcome).raised = none
        ↔ ((∃ c, subprocess_helper firstStop = .ok c)
            ∨ (∃ c, subprocess_helper secondStop = .ok c))) := by
  cases hf : subprocess_helper firstStop with
  | ok cf =>
    simp [sandbox_stop, hf]
  | error ef =>
    cases hro : subprocess_helper reapOutcome with
    | ok cr =>
      cases hs : subprocess_helper secondStop with
      | ok cs =>
        simp [sandbox_stop, sandbox_reap, hf, hro, hs, SandboxExc.isCritical]
      | error es =>
        simp [sandbox_stop, sandbox_reap, hf, hro, hs, SandboxExc.isCritical]
    | error er =>
      cases hs : subprocess_helper secondStop with
      | ok cs =>
        simp [sandbox_stop, sandbox_reap, hf, hro, hs, SandboxExc.isCritical]
      | error es =>
        simp [sandbox_stop, sandbox_reap, hf, hro, hs, SandboxExc.isCritical]

/-- Witness for `C6_stop_escalation`: both stop attempts time out, so
the critical `SandboxNotStopped` is raised. -/
theorem C6_stop_witness :
    (sandbox_stop "/sandbox-1-main.sh" .timedOut .timedOut (.completed 0)).raised
      = some .sandboxNotStopped
    ∧ SandboxExc.isCritical .sandboxNotStopped = true :=
  ((C6_stop_escalation "/sandbox-1-main.sh" .timedOut .timedOut (.completed 0)).2.1
      .timeoutExpired rfl).2.2.2 .timeoutExpired rfl

/-- Claim C7: `_reap` returns normally for every outcome of the reaper
subprocess; on `CalledProcessError` or `TimeoutExpired` it reports the
failure through the `reaping_failed` mocking hook instead of raising. -/
theorem C7_reap_never_raises (token : String) (o : SubprocOutcome) :
    (∃ info, sandbox_reap token o = .ok info)
    ∧ (∀ err, subprocess_helper o = .error err →
        sandbox_reap token o = .ok ⟨["reaping_failed"], .error err⟩) := by
  cases ho : subprocess_helper o with
  | ok c =>
    refine ⟨⟨⟨[], .ok c⟩, ?_⟩, ?_⟩
    · simp [sandbox_reap, ho]
    · intro err herr
      cases herr
  | error e =>
    refine ⟨⟨⟨["reaping_failed"], .error e⟩, ?_⟩, ?_⟩
    · simp [sandbox_reap, ho]
    · intro err herr
      injection herr with h2
      subst h2
      simp [sandbox_reap, ho]

/-- Witness for `C7_reap_never_raises`: the reaper subprocess timing out
is swallowed and reported via the hook. -/
theorem C7_reap_witness :
    sandbox_reap "sandbox-abc_cmd42" .timedOut
      = .ok ⟨["reaping_failed"], .error .timeoutExpired⟩ :=
  (C7_reap_never_raises "sandbox-abc_cmd42" .timedOut).2 .timeoutExpired rfl

/-- Claim C9, counterexample.  The claim asserts best-effort teardown at
*every* failing setup step.  In `_create_and_start` only the cmd_runner
copy and the chmod are inside the `try` block that calls
`self._destroy()`: a failure injecting the placeholder main-process
script (step 2) re-raises with no teardown of the already created
container. -/
theorem C9_setup_counterexample :
    (create_and_start ⟨true, false, true, true, true⟩).raised.isSome = true
    ∧ (create_and_start ⟨true, false, true, true, true⟩).destroyCalled = false := by
  decide

/-- Claim C9, amended: teardown-then-re-raise happens exactly for
failures of the runner-injection and permission-setting steps; failures
of container create, placeholder-script injection or container start
re-raise without teardown; in every failure case the error is raised and
the sandbox is never left marked running, and on success no teardown
happens and the sandbox is running. -/
theorem C9_setup_teardown (o : SetupOutcome) :
    ((o.createOk = true ∧ o.copyMainScriptOk = true ∧ o.startOk = true
        ∧ (o.copyRunnerOk = false ∨ o.chmodOk = false)) →
      (create_and_start o).destroyCalled = true
      ∧ (create_and_start o).raised.isSome = true)
    ∧ ((o.createOk = false ∨ o.copyMainScriptOk = false ∨ o.startOk = false) →
      (create_and_start o).destroyCalled = false
      ∧ (create_and_start o).raised.isSome = true)
    ∧ ((create_and_start o).raised.isSome = true → (create_and_start o).isRunning = false)
    ∧ ((create_and_start o).raised = none →
      (create_and_start o).isRunning = true
      ∧ (create_and_start o).destroyCalled = false
      ∧ o.createOk = true ∧ o.copyMainScriptOk = true ∧ o.startOk = true
      ∧ o.copyRunnerOk = true ∧ o.chmodOk = true) := by
  obtain ⟨c, m, s, r, h⟩ := o
  cases c <;> cases m <;> cases s <;> cases r <;> cases h <;>
    simp [create_and_start]

/-- Witness for `C9_setup_teardown`: a cmd_runner-injection failure
triggers teardown and re-raises. -/
theorem C9_setup_teardown_witness :
    (create_and_start ⟨true, true, true, false, true⟩).destroyCalled = true
    ∧ (create_and_start ⟨true, true, true, false, true⟩).raised.isSome = true :=
  (C9_setup_teardown ⟨true, true, true, false, true⟩).1 ⟨rfl, rfl, rfl, Or.inl rfl⟩

/-- A freshly allocated dict holds exactly the entries it was built
from. -/
theorem DictStore.alloc_mem_new (σ : DictStore) (v : List (String × String)) :
    (σ.alloc v).1.mem (σ.alloc v).2 = some v := by
  simp [DictStore.alloc]

/-- Allocation leaves every other reference unchanged. -/
theorem DictStore.alloc_mem_old (σ : DictStore) (v : List (String × String))
    (r : Nat) (h : r ≠ σ.next) : (σ.alloc v).1.mem r = σ.mem r := by
  simp [DictStore.alloc, h]

/-- Writing one dict leaves every other reference unchanged. -/
theorem DictStore.write_mem_other (σ : DictStore) (v : List (String × String))
    (r r' : Nat) (h : r' ≠ r) : (σ.write r v).mem r' = σ.mem r' := by
  simp [DictStore.write, h]

/-- The property always returns a reference to the store's next fresh
cell. -/
theorem env_prop_ret (σ : DictStore) (envRef : Option Nat) :
    (environment_variables_prop σ envRef).2 = σ.next := by
  cases envRef with
  | none => rfl
  | some r =>
    cases h : σ.mem r with
    | none => simp [environment_variables_prop, h, DictStore.alloc]
    | some entries =>
      by_cases he : entries = [] <;>
        simp [environment_variables_prop, h, he, DictStore.alloc]

/-- The dict returned by the property holds exactly the configured
entries (empty when nothing was configured). -/
theorem env_prop_mem (σ : DictStore) (envRef : Option Nat) :
    (environment_variables_prop σ envRef).1.mem (environment_variables_prop σ envRef).2
      = some (environment_variables_content σ envRef) := by
  cases envRef with
  | none => exact σ.alloc_mem_new []
  | some r =>
    cases h : σ.mem r with
    | none =>
      simp [environment_variables_prop, environment_variables_content, h, DictStore.alloc]
    | some entries =>
      by_cases he : entries = [] <;>
        simp [environment_variables_prop, environment_variables_content, h, he,
          DictStore.alloc]

/-- The property leaves every pre-existing reference unchanged. -/
theorem env_prop_mem_old (σ : DictStore) (envRef : Option Nat) (r : Nat)
    (h : r ≠ σ.next) :
    (environment_variables_prop σ envRef).1.mem r = σ.mem r := by
  cases envRef with
  | none => exact σ.alloc_mem_old [] r h
  | some r' =>
    cases h' : σ.mem r' with
    | none =>
      simp [environment_variables_prop, h', DictStore.alloc, h]
    | some entries =>
      by_cases he : entries = [] <;>
        simp [environment_variables_prop, h', he, DictStore.alloc, h]

/-- The `-e` arguments are a pure function of the configured content. -/
theorem env_create_args_eq (σ : DictStore) (envRef : Option Nat) :
    env_create_args σ envRef
      = (environment_variables_content σ envRef).flatMap
          (fun kv => ["-e", kv.1 ++ "=" ++ kv.2]) := by
  unfold env_create_args
  rw [env_prop_mem, Option.getD_some]

/-- The configured content only depends on the configured reference's
cell. -/
theorem env_content_congr (σ σ' : DictStore) (envRef : Option Nat)
    (h : ∀ r, envRef = some r → σ'.mem r = σ.mem r) :
    environment_variables_content σ' envRef = environment_variables_content σ envRef := by
  cases envRef with
  | none => rfl
  | some r =>
    show (σ'.mem r).getD [] = (σ.mem r).getD []
    rw [h r rfl]

/-- Claim C10: the `environment_variables` property returns a mapping
whose content equals the configured environment variables (empty when
none were configured), and the returned object is fresh: writing to it
leaves the configured mapping, and the `-e` arguments
`_create_and_start` would later derive from it, unchanged. -/
theorem C10_env_vars_isolation (σ : DictStore) (envRef : Option Nat)
    (hvalid : ∀ r, envRef = some r → r < σ.next)
    (mutated : List (String × String)) :
    (environment_variables_prop σ envRef).1.mem (environment_variables_prop σ envRef).2
      = some (environment_variables_content σ envRef)
    ∧ (∀ r, envRef = some r →
        (((environment_variables_prop σ envRef).1.write
            (environment_variables_prop σ envRef).2 mutated).mem r) = σ.mem r)
    ∧ env_create_args
        ((environment_variables_prop σ envRef).1.write
          (environment_variables_prop σ envRef).2 mutated) envRef
      = env_create_args σ envRef := by
  have hmemr : ∀ r, envRef = some r →
      (((environment_variables_prop σ envRef).1.write
          (environment_variables_prop σ envRef).2 mutated).mem r) = σ.mem r := by
    intro r hr
    have hne : r ≠ σ.next := Nat.ne_of_lt (hvalid r hr)
    rw [env_prop_ret]
    rw [DictStore.write_mem_other _ _ _ _ hne]
    exact env_prop_mem_old σ envRef r hne
  refine ⟨env_prop_mem σ envRef, hmemr, ?_⟩
  rw [env_create_args_eq, env_create_args_eq]
  rw [env_content_congr σ _ envRef hmemr]

/-- Witness for `C10_env_vars_isolation`: overwriting the returned copy
does not change the `docker create` environment arguments. -/
theorem C10_env_vars_witness :
    env_create_args
        ((environment_variables_prop envStoreExample (some 0)).1.write
          (environment_variables_prop envStoreExample (some 0)).2 [("HACKED", "1")])
        (some 0)
      = env_create_args envStoreExample (some 0) :=
  (C10_env_vars_isolation envStoreExample (some 0)
    (fun r h => by injection h with h2; subst h2; decide) [("HACKED", "1")]).2.2

/-- Membership in `childrenOf` unpacked. -/
theorem mem_childrenOf {table : List Proc} {pid : Nat} {p : Proc}
    (h : p ∈ childrenOf table pid) : p ∈ table ∧ p.ppid = pid := by
  unfold childrenOf at h
  rw [List.mem_filter] at h
  exact ⟨h.1, by simpa using h.2⟩

/-- In a well-formed table every collected descendant has a pid strictly
above the root's pid. -/
theorem descendantsAux_pid_gt {table : List Proc} (hwf : WFTable table) :
    ∀ (fuel pid : Nat) (p : Proc), p ∈ descendantsAux table fuel pid → pid < p.pid := by
  intro fuel
  induction fuel with
  | zero =>
    intro pid p h
    simp [descendantsAux] at h
  | succ k ih =>
    intro pid p h
    simp only [descendantsAux, List.mem_flatMap] at h
    obtain ⟨c, hc, hp⟩ := h
    obtain ⟨hctab, hcpid⟩ := mem_childrenOf hc
    have hcgt : pid < c.pid := by
      have := hwf c hctab
      omega
    rcases List.mem_cons.mp hp with rfl | hp'
    · exact hcgt
    · exact Nat.lt_trans hcgt (ih c.pid p hp')

/-- Well-formedness: a found process is never among its own
descendants. -/
theorem descendants_pid_gt {table : List Proc} (hwf : WFTable table)
    {pid : Nat} {p : Proc} (h : p ∈ descendants table pid) : pid < p.pid :=
  descendantsAux_pid_gt hwf table.length pid p h

/-- Whatever `_find_process` returns passed both of its filters: it is
not a `docker exec` wrapper and one of its arguments contains the
token. -/
theorem find_process_spec (token : String) :
    ∀ (table : List Proc) (p : Proc), find_process token table = some p →
      p.cmdline.take 2 ≠ ["docker", "exec"]
      ∧ p.cmdline.any (fun arg => containsSub token.toList arg.toList) = true := by
  intro table
  induction table with
  | nil =>
    intro p h
    simp [find_process] at h
  | cons q rest ih =>
    intro p h
    unfold find_process at h
    by_cases h1 : q.cmdline.take 2 = ["docker", "exec"]
    · rw [if_pos h1] at h
      exact ih p h
    · rw [if_neg h1] at h
      by_cases h2 : q.cmdline.any (fun arg => containsSub token.toList arg.toList) = true
      · rw [if_pos h2] at h
        injection h with h3
        subst h3
        exact ⟨h1, h2⟩
      · rw [if_neg h2] at h
        exact ih p h

/-- Claim C8: for every reaper run on a well-formed process table where
the search finds a process, (1) the found process is not a
`docker exec` wrapper (those are excluded from matching), (2) every
signaled pid belongs to a strict descendant of the found process, so
(3) the found process itself is never signaled, (4) a self-match is
stopped by the safety assertion before anything is signaled, (5) the
reaper's own process is never signaled, and (6) SIGKILL goes only to
descendants that already received SIGTERM and survived the bounded
wait. -/
theorem C8_reaper_safety (table : List Proc) (selfPid : Nat) (token : String)
    (dies : Nat → Bool) (parent : Proc)
    (hwf : WFTable table)
    (hfind : find_process token table = some parent) :
    parent.cmdline.take 2 ≠ ["docker", "exec"]
    ∧ (∀ q, (q ∈ (reaper_run table selfPid token dies).termSignaled
          ∨ q ∈ (reaper_run table selfPid token dies).killSignaled) →
        parent.pid < q ∧ ∃ d ∈ descendants table parent.pid, d.pid = q)
    ∧ parent.pid ∉ (reaper_run table selfPid token dies).termSignaled
    ∧ parent.pid ∉ (reaper_run table selfPid token dies).killSignaled
    ∧ (parent.pid = selfPid →
        (reaper_run table selfPid token dies).termSignaled = []
        ∧ (reaper_run table selfPid token dies).killSignaled = []
        ∧ (reaper_run table selfPid token dies).assertFailed = true)
    ∧ (selfPid ∉ (descendants table parent.pid).map (fun p => p.pid) →
        selfPid ∉ (reaper_run table selfPid token dies).termSignaled
        ∧ selfPid ∉ (reaper_run table selfPid token dies).killSignaled)
    ∧ (∀ q, q ∈ (reaper_run table selfPid token dies).killSignaled →
        q ∈ (reaper_run table selfPid token dies).termSignaled ∧ dies q = false) := by
  have hnotdocker := (find_process_spec token table parent hfind).1
  simp only [reaper_run, hfind]
  by_cases hself : parent.pid = selfPid
  · simp only [kill_proc_descendents, hself, if_pos rfl]
    subst hself
    refine ⟨hnotdocker, ?_, ?_, ?_, ?_, ?_, ?_⟩ <;> simp
  · simp only [kill_proc_descendents, if_neg hself]
    have hsig : ∀ q, q ∈ (descendants table parent.pid).map (fun p => p.pid) →
        parent.pid < q ∧ ∃ d ∈ descendants table parent.pid, d.pid = q := by
      intro q hq
      rw [List.mem_map] at hq
      obtain ⟨d, hd, rfl⟩ := hq
      exact ⟨descendants_pid_gt hwf hd, d, hd, rfl⟩
    have hkill_sub : ∀ q,
        q ∈ ((descendants table parent.pid).filter
            (fun p => !(dies p.pid))).map (fun p => p.pid) →
        q ∈ (descendants table parent.pid).map (fun p => p.pid) ∧ dies q = false := by
      intro q hq
      rw [List.mem_map] at hq
      obtain ⟨d, hd, rfl⟩ := hq
      rw [List.mem_filter] at hd
      refine ⟨List.mem_map.mpr ⟨d, hd.1, rfl⟩, ?_⟩
      simpa using hd.2
    refine ⟨hnotdocker, ?_, ?_, ?_, ?_, ?_, ?_⟩
    · intro q hq
      rcases hq with hq | hq
      · exact hsig q hq
      · exact hsig q (hkill_sub q hq).1
    · intro hmem
      have := (hsig parent.pid hmem).1
      omega
    · intro hmem
      have := (hsig parent.pid (hkill_sub parent.pid hmem).1).1
      omega
    · intro h
      exact absurd h hself
    · intro hnotdesc
      exact ⟨hnotdesc, fun hmem => hnotdesc (hkill_sub selfPid hmem).1⟩
    · intro q hq
      exact hkill_sub q hq

/-- Witness for `C8_reaper_safety` on a concrete table: the search skips
the `docker exec` wrapper and matches the placeholder main process,
which is itself never signaled. -/
theorem C8_reaper_witness :
    (⟨5, 1, ["/bin/bash", "/sandbox-abc-main.sh"]⟩ : Proc).cmdline.take 2
        ≠ ["docker", "exec"]
    ∧ (5 : Nat) ∉ (reaper_run procTableExample 999 "sandbox-abc"
        (fun q => q == 6)).termSignaled :=
  ⟨(C8_reaper_safety procTableExample 999 "sandbox-abc" (fun q => q == 6)
      ⟨5, 1, ["/bin/bash", "/sandbox-abc-main.sh"]⟩
      (by unfold WFTable procTableExample; decide) (by decide)).1,
   (C8_reaper_safety procTableExample 999 "sandbox-abc" (fun q => q == 6)
      ⟨5, 1, ["/bin/bash", "/sandbox-abc-main.sh"]⟩
      (by unfold WFTable procTableExample; decide) (by decide)).2.2.1⟩
